import Mathlib

/-!
Verification development for the admission-control and credit-accounting core
of the Talk-To-My-Lawyer application: the per-client rate limiter found in the
middleware (`isRateLimited`) and the credit gate implemented by the SQL
functions `check_letter_allowance`, `deduct_letter_allowance` and
`add_letter_allowances`, plus the free-trial decision of the letter-generation
route.  The definitions below are shallow embeddings of those source
functions; stateful code is modelled by explicit state passing, and the
two-phase (read then write) structure of the database functions is kept
explicit so that interleavings of concurrent calls can be examined.
-/

namespace TalkToMyLawyer

/-! ## Rate limiter (middleware `isRateLimited`)

Source: the middleware file declaring `RATE_LIMIT_WINDOW`,
`RATE_LIMIT_MAX_REQUESTS` and `isRateLimited`.  The in-memory store is a
`Map<string, {count, resetTime}>` keyed by the client id string alone; the
endpoint path selects only the maximum request count. -/

/-- `RATE_LIMIT_WINDOW = 15 * 60 * 1000` milliseconds. -/
def RATE_LIMIT_WINDOW : Nat := 15 * 60 * 1000

/-- The string marking API routes in the middleware. -/
def apiRoot : String := "/api/"

/-- `s.startsWith(p)` on the underlying character lists (the library
`String.startsWith` does not reduce inside the kernel). -/
def strStartsWith (s p : String) : Bool := p.data.isPrefixOf s.data

/-- `RATE_LIMIT_MAX_REQUESTS[path] || RATE_LIMIT_MAX_REQUESTS.default`:
the per-endpoint maximum with the default entry for unlisted endpoints. -/
def rateLimitMaxRequests (path : String) : Nat :=
  if path = "/api/generate-letter" then 5
  else if path = "/api/create-checkout" then 10
  else if path = "/api/admin-auth/login" then 5
  else if path = "/api/auth/signup" then 3
  else if path = "/api/auth/login" then 10
  else 100

/-- One record of the in-memory rate-limit store:
`{count: number, resetTime: number}`. -/
structure RateLimitEntry where
  count : Nat
  resetTime : Nat
deriving DecidableEq, Repr

/-- The `rateLimitStore` map, keyed by the client id string. -/
abbrev RLStore := List (String × RateLimitEntry)

/-- `rateLimitStore.get(clientId)`. -/
def storeFind : RLStore → String → Option RateLimitEntry
  | [], _ => none
  | (k, v) :: rest, c => if k = c then some v else storeFind rest c

/-- `rateLimitStore.set(clientId, entry)` (replace if present, append if not). -/
def storeSet : RLStore → String → RateLimitEntry → RLStore
  | [], c, e => [(c, e)]
  | (k, v) :: rest, c, e =>
      if k = c then (k, e) :: rest else (k, v) :: storeSet rest c e

/-- The value returned by `isRateLimited`:
`{limited: boolean, resetTime?: number, remaining?: number}`.  The optional
fields are absent exactly on the non-API early return. -/
structure RateLimitOutcome where
  limited : Bool
  resetTime : Option Nat
  remaining : Option Nat
deriving DecidableEq, Repr

/-- Shallow embedding of `isRateLimited(request)`.  The request is represented
by the client id computed by `getClientId`, the pathname, and the current
time `now` (`Date.now()`); the mutable module-level `rateLimitStore` is
threaded explicitly.  Faithful to the source: a fresh entry
`{count: 0, resetTime: now + RATE_LIMIT_WINDOW}` is created when no entry
exists or the stored entry's window has expired (`now > entry.resetTime`);
the count is incremented on every call; `remaining = max(0, max - count)`;
`limited = count > maxRequests`. -/
def isRateLimited (store : RLStore) (clientId path : String) (now : Nat) :
    RateLimitOutcome × RLStore :=
  if ¬ strStartsWith path apiRoot then
    (⟨false, none, none⟩, store)
  else
    let maxRequests := rateLimitMaxRequests path
    let entry :=
      match storeFind store clientId with
      | some e => if now > e.resetTime then
            RateLimitEntry.mk 0 (now + RATE_LIMIT_WINDOW)
          else e
      | none => RateLimitEntry.mk 0 (now + RATE_LIMIT_WINDOW)
    let entry := RateLimitEntry.mk (entry.count + 1) entry.resetTime
    let remaining := maxRequests - entry.count
    (⟨decide (entry.count > maxRequests), some entry.resetTime, some remaining⟩,
      storeSet store clientId entry)

/-- A rapid sequence of calls (all at the same instant `now`, same client and
path), returning the list of outcomes and the final store. -/
def rapidCalls (store : RLStore) (clientId path : String) (now : Nat) :
    Nat → List RateLimitOutcome × RLStore
  | 0 => ([], store)
  | n + 1 =>
      let (o, store1) := isRateLimited store clientId path now
      let (os, store2) := rapidCalls store1 clientId path now n
      (o :: os, store2)

/-- Claim C10: with the configuration `{windowDurationMs: 900000,
maxRequestsPerWindow: 5}` that the source gives `/api/generate-letter`,
six rapid calls from one client starting from an empty store yield
`limited = false` with strictly decreasing `remaining` 4, 3, 2, 1, 0 on the
first five calls and `limited = true` with `remaining = 0` and the positive
reset time `900000` on the sixth; the stored counter is incremented on every
call regardless of outcome, ending at 6, so the denied sixth request still
consumed a slot. -/
theorem c10_rate_limit_scenario :
    RATE_LIMIT_WINDOW = 900000 ∧
    rateLimitMaxRequests "/api/generate-letter" = 5 ∧
    (rapidCalls [] "user:alice" "/api/generate-letter" 0 6).1 =
      [⟨false, some 900000, some 4⟩, ⟨false, some 900000, some 3⟩,
       ⟨false, some 900000, some 2⟩, ⟨false, some 900000, some 1⟩,
       ⟨false, some 900000, some 0⟩, ⟨true, some 900000, some 0⟩] ∧
    (rapidCalls [] "user:alice" "/api/generate-letter" 0 6).2 =
      [("user:alice", ⟨6, 900000⟩)] ∧
    (0 : Nat) < 900000 := by
  refine ⟨rfl, by decide, ?_, ?_, by decide⟩ <;> decide

theorem storeFind_storeSet (store : RLStore) (c : String) (e : RateLimitEntry) :
    storeFind (storeSet store c e) c = some e := by
  induction store with
  | nil => simp [storeSet, storeFind]
  | cons kv rest ih =>
      by_cases h : kv.1 = c <;> simp [storeSet, storeFind, h, ih]

/-- Claim C8, counterexample: the store is keyed by the client id alone, so a
client's requests to one endpoint do consume slots in the counter consulted
for another endpoint.  Concretely, after three `/api/create-checkout`
requests, the client's very first `/api/auth/signup` request (whose maximum
is 3) is already rate-limited. -/
theorem c8_per_endpoint_counterexample :
    rateLimitMaxRequests "/api/auth/signup" = 3 ∧
    (isRateLimited (rapidCalls [] "ip:1.2.3.4" "/api/create-checkout" 0 3).2
        "ip:1.2.3.4" "/api/auth/signup" 0).1.limited = true := by
  constructor <;> decide

/-- Claim C8, amended: window counters are maintained per client only.  The
endpoint determines nothing about the stored counter: for any two API paths,
a request leaves the store in exactly the same state, so every API request by
a client consumes a slot in the single counter consulted for all of that
client's endpoints. -/
theorem c8_counter_is_per_client_only (store : RLStore) (c p1 p2 : String)
    (now : Nat) (h1 : strStartsWith p1 apiRoot = true)
    (h2 : strStartsWith p2 apiRoot = true) :
    (isRateLimited store c p1 now).2 = (isRateLimited store c p2 now).2 := by
  simp [isRateLimited, h1, h2]

theorem c8_counter_is_per_client_only_witness :
    strStartsWith "/api/auth/login" apiRoot = true ∧
    strStartsWith "/api/create-checkout" apiRoot = true ∧
    (isRateLimited [] "user:bob" "/api/auth/login" 7).2 =
      (isRateLimited [] "user:bob" "/api/create-checkout" 7).2 :=
  ⟨by decide, by decide,
    c8_counter_is_per_client_only [] "user:bob" "/api/auth/login"
      "/api/create-checkout" 7 (by decide) (by decide)⟩

/-- Claim C9: a client whose counter stands at the endpoint's maximum is
denied on the next call inside the window (`now ≤ resetTime`), and the first
call issued strictly after `windowResetAt` replaces the counter by a fresh one
(`count = 1`, new reset time) and is allowed. -/
theorem c9_window_rollover (store : RLStore) (c path : String)
    (now now2 r : Nat) (hapi : strStartsWith path apiRoot = true)
    (hmax : 1 ≤ rateLimitMaxRequests path)
    (hentry : storeFind store c = some ⟨rateLimitMaxRequests path, r⟩)
    (hwin : now ≤ r) (hafter : now2 > r) :
    (isRateLimited store c path now).1.limited = true ∧
    (isRateLimited (isRateLimited store c path now).2 c path now2).1.limited
      = false ∧
    storeFind (isRateLimited (isRateLimited store c path now).2 c path now2).2
      c = some ⟨1, now2 + RATE_LIMIT_WINDOW⟩ := by
  have hnot : ¬ (now > r) := Nat.not_lt.mpr hwin
  simp only [isRateLimited, hapi, Bool.true_eq_false, not_false_iff,
    if_true, if_false, hentry, not_true, ite_false, ite_true]
  simp [hnot, storeFind_storeSet, hafter, Nat.lt_iff_add_one_le, hmax,
    Nat.not_lt.mpr hmax]

theorem c9_window_rollover_witness :
    strStartsWith "/api/generate-letter" apiRoot = true ∧
    1 ≤ rateLimitMaxRequests "/api/generate-letter" ∧
    storeFind [("ip:9", ⟨5, 1000⟩)] "ip:9" =
      some ⟨rateLimitMaxRequests "/api/generate-letter", 1000⟩ ∧
    500 ≤ 1000 ∧ 2000 > 1000 ∧
    ((isRateLimited [("ip:9", ⟨5, 1000⟩)] "ip:9" "/api/generate-letter"
        500).1.limited = true ∧
     (isRateLimited
        (isRateLimited [("ip:9", ⟨5, 1000⟩)] "ip:9" "/api/generate-letter"
          500).2 "ip:9" "/api/generate-letter" 2000).1.limited = false ∧
     storeFind
        (isRateLimited
          (isRateLimited [("ip:9", ⟨5, 1000⟩)] "ip:9" "/api/generate-letter"
            500).2 "ip:9" "/api/generate-letter" 2000).2 "ip:9" =
       some ⟨1, 2000 + RATE_LIMIT_WINDOW⟩) :=
  ⟨by decide, by decide, by decide, by decide, by decide,
    c9_window_rollover [("ip:9", ⟨5, 1000⟩)] "ip:9" "/api/generate-letter"
      500 2000 1000 (by decide) (by decide) (by decide) (by decide)
      (by decide)⟩

/-! ## Credit gate (SQL functions on `profiles` and `subscriptions`)

Source: the database schema dump declaring the `profiles` and `subscriptions`
tables and the plpgsql functions `check_letter_allowance`,
`deduct_letter_allowance` and `add_letter_allowances`.  The per-user state is
the user's `profiles` row together with the user's `subscriptions` rows.
Nullable integer columns are modelled as `Option Int` (the schema attaches no
CHECK constraint to either credit counter, so negative values are storable),
and the `COALESCE(..., 0)` reads of the source are kept explicit. -/

/-- `subscription_status` enum: `active | canceled | past_due`. -/
inductive SubStatus where
  | active
  | canceled
  | past_due
deriving DecidableEq, Repr

/-- The columns of a `subscriptions` row that the credit-gate functions read
or write.  Both counters are present because the schema has both: the
`credits_remaining` column read by `check_letter_allowance` and the
`remaining_letters` column read and written by `deduct_letter_allowance` and
`add_letter_allowances`. -/
structure Subscription where
  id : Nat
  status : SubStatus
  created_at : Nat
  current_period_end : Option Nat
  remaining_letters : Option Int
  credits_remaining : Option Int
  plan_type : Option String
deriving DecidableEq, Repr

/-- The columns of a `profiles` row the credit gate reads.  The source reads
`COALESCE(is_super_user, FALSE)` (respectively compares with `= TRUE`), so a
NULL or missing flag behaves as `false` and the flag is modelled as `Bool`. -/
structure Profile where
  is_super_user : Bool
deriving DecidableEq, Repr

/-- One user's credit-gate state: the profile row and the user's
subscription rows. -/
structure UserState where
  profile : Profile
  subs : List Subscription
deriving DecidableEq, Repr

/-- The `WHERE status = 'active'` filter of `deduct_letter_allowance`. -/
def activeFilter (s : Subscription) : Bool := s.status = SubStatus.active

/-- The `WHERE status = 'active' AND (current_period_end IS NULL OR
current_period_end > NOW())` filter of `check_letter_allowance`. -/
def activeValidFilter (now : Nat) (s : Subscription) : Bool :=
  s.status = SubStatus.active &&
    match s.current_period_end with
    | none => true
    | some t => t > now

/-- `SELECT * ... WHERE p ... ORDER BY created_at DESC LIMIT 1`: the row with
the greatest `created_at` among those satisfying `p`. -/
def latestWhere (p : Subscription → Bool) : List Subscription →
    Option Subscription
  | [] => none
  | s :: rest =>
      match latestWhere p rest with
      | none => if p s then some s else none
      | some b =>
          if p s && b.created_at < s.created_at then some s else some b

/-- The row type returned by `check_letter_allowance`:
`(has_allowance boolean, remaining integer, plan_name text, is_super
boolean)`. -/
structure AllowanceRow where
  has_allowance : Bool
  remaining : Int
  plan_name : Option String
  is_super : Bool
deriving DecidableEq, Repr

/-- Shallow embedding of `check_letter_allowance(u_id)`: super users get
`(true, 999, 'unlimited', true)`; with no active, unexpired subscription the
result is `(false, 0, NULL, false)`; otherwise the result reports
`COALESCE(credits_remaining, 0) > 0` together with that coalesced count and
the plan type. -/
def check_letter_allowance (st : UserState) (now : Nat) : AllowanceRow :=
  if st.profile.is_super_user then
    ⟨true, 999, some "unlimited", true⟩
  else
    match latestWhere (activeValidFilter now) st.subs with
    | none => ⟨false, 0, none, false⟩
    | some sub =>
        let remaining_count := sub.credits_remaining.getD 0
        ⟨decide (remaining_count > 0), remaining_count, sub.plan_type, false⟩

/-- The local decision `deduct_letter_allowance` reaches after its read
statements (the super-user SELECT, the subscription SELECT and the
`remaining_letters` check) and before its UPDATE. -/
inductive DeductDecision where
  | superAllow
  | deny
  | takeFrom (subId : Nat)
deriving DecidableEq, Repr

/-- The read phase of `deduct_letter_allowance(u_id)`: return TRUE for super
users; FALSE when no active subscription exists or
`COALESCE(remaining_letters, 0) <= 0`; otherwise decide to decrement the
selected subscription row.  None of these statements locks the row
(no `FOR UPDATE`), so between this phase and the write phase another
transaction may run. -/
def deduct_read (st : UserState) : DeductDecision :=
  if st.profile.is_super_user then DeductDecision.superAllow
  else
    match latestWhere activeFilter st.subs with
    | none => DeductDecision.deny
    | some sub =>
        if sub.remaining_letters.getD 0 ≤ 0 then DeductDecision.deny
        else DeductDecision.takeFrom sub.id

/-- The UPDATE of `deduct_letter_allowance`:
`UPDATE subscriptions SET remaining_letters = remaining_letters - 1 WHERE id
= sub_record.id`.  The WHERE clause names only the row id — the decrement is
not conditioned on `remaining_letters > 0` still holding at the write. -/
def applyDecrement (st : UserState) (subId : Nat) : UserState :=
  { st with
    subs := st.subs.map fun s =>
      if s.id = subId then
        { s with remaining_letters := s.remaining_letters.map (· - 1) }
      else s }

/-- The write phase of `deduct_letter_allowance`, applied to whatever state
the database holds when the UPDATE runs. -/
def deduct_write (st : UserState) : DeductDecision → Bool × UserState
  | DeductDecision.superAllow => (true, st)
  | DeductDecision.deny => (false, st)
  | DeductDecision.takeFrom subId => (true, applyDecrement st subId)

/-- `deduct_letter_allowance(u_id)` as a single uninterrupted call: the write
phase applied to the read phase's decision on the same state. -/
def deduct_letter_allowance (st : UserState) : Bool × UserState :=
  deduct_write st (deduct_read st)

/-- `CASE` table of `add_letter_allowances`: letters granted per plan name,
0 for unrecognized plans. -/
def lettersForPlan (plan_name : String) : Int :=
  if plan_name = "one_time" ∨ plan_name = "single_letter" then 1
  else if plan_name = "standard_4_month" ∨ plan_name = "monthly_standard"
    then 4
  else if plan_name = "premium_8_month" ∨ plan_name = "monthly_premium"
    then 8
  else 0

/-- Shallow embedding of `add_letter_allowances(sub_id, plan_name)` acting on
the addressed subscription row: `none` models the `RAISE EXCEPTION` on an
invalid plan, otherwise `remaining_letters` is set to the granted count and
`plan_type` to the plan name. -/
def add_letter_allowances (sub : Subscription) (plan_name : String) :
    Option Subscription :=
  let letters_to_add := lettersForPlan plan_name
  if letters_to_add = 0 then none
  else some { sub with remaining_letters := some letters_to_add,
                       plan_type := some plan_name }

/-- The schedule in which two concurrent `deduct_letter_allowance` calls for
the same user both run their read phase before either UPDATE executes —
possible because the reads take no row lock and the UPDATE is not conditioned
on the counter.  Returns both calls' results and the final state. -/
def twoConcurrentDeducts (st : UserState) : Bool × Bool × UserState :=
  let d1 := deduct_read st
  let d2 := deduct_read st
  let r1 := deduct_write st d1
  let r2 := deduct_write r1.2 d2
  (r1.1, r2.1, r2.2)

/-- A non-super user holding one active subscription with exactly one letter
credit left. -/
def oneCreditState : UserState :=
  ⟨⟨false⟩, [⟨0, SubStatus.active, 0, none, some 1, some 1, some "one_time"⟩]⟩

theorem latestWhere_congr (p q : Subscription → Bool)
    (l : List Subscription) (h : ∀ s ∈ l, p s = q s) :
    latestWhere p l = latestWhere q l := by
  induction l with
  | nil => rfl
  | cons s rest ih =>
      have hs := h s (List.mem_cons_self s rest)
      have ihh := ih fun x hx => h x (List.mem_cons_of_mem _ hx)
      simp only [latestWhere, ihh, hs]

theorem latestWhere_mem (p : Subscription → Bool) (l : List Subscription)
    (s : Subscription) (h : latestWhere p l = some s) : s ∈ l := by
  induction l with
  | nil => simp [latestWhere] at h
  | cons a rest ih =>
      unfold latestWhere at h
      cases hr : latestWhere p rest with
      | none =>
          rw [hr] at h
          by_cases hp : p a
          · simp [hp] at h
            simp [h]
          · simp [hp] at h
      | some b =>
          rw [hr] at h
          by_cases hc : p a && decide (b.created_at < a.created_at)
          · simp [hc] at h
            simp [h]
          · simp [hc] at h
            exact List.mem_cons_of_mem _ (ih (h ▸ hr))

/-- Claim C1 fails on the code: `deduct_letter_allowance` is a separate
SELECT followed by an unconditional UPDATE, so for a user with one remaining
credit the schedule in which two concurrent calls both read before either
writes makes both calls return TRUE (2 allowed where the claim permits at
most k = 1) and drives the counter to -1 (the claim requires
max(0, 1 - 2) = 0).  A single uninterrupted call does stop at 0, confirming
the interleaving as the cause. -/
theorem c1_two_concurrent_deducts_overdraw :
    twoConcurrentDeducts oneCreditState =
      (true, true,
        ⟨⟨false⟩,
          [⟨0, SubStatus.active, 0, none, some (-1), some 1,
            some "one_time"⟩]⟩) ∧
    deduct_letter_allowance oneCreditState =
      (true,
        ⟨⟨false⟩,
          [⟨0, SubStatus.active, 0, none, some 0, some 1,
            some "one_time"⟩]⟩) := by
  constructor <;> decide

/-- Claim C2 fails on the code: starting from the reachable state with one
credit remaining, the unlocked read-read-write-write interleaving of two
`deduct_letter_allowance` calls reaches a state whose `remaining_letters`
counter is -1 < 0, so `creditsRemaining >= 0` is not an invariant of every
reachable state; the decrement of the second call was applied although its
post-decrement value is negative (nothing re-confirms the precondition at
the write, and the schema has no CHECK constraint on the counter). -/
theorem c2_negative_counter_reachable :
    (twoConcurrentDeducts oneCreditState).2.2.subs.map
        Subscription.remaining_letters = [some (-1)] ∧
    ((-1 : Int) < 0) := by
  constructor <;> decide

/-- A non-super user whose single active subscription has
`credits_remaining = 0` but `remaining_letters = 1`: the two counters of the
schema disagree. -/
def mismatchState : UserState :=
  ⟨⟨false⟩, [⟨0, SubStatus.active, 0, none, some 1, some 0, some "one_time"⟩]⟩

/-- Claim C5, counterexample: `check_letter_allowance` reads the
`credits_remaining` column while `deduct_letter_allowance` checks and
decrements `remaining_letters`, so on a state where the two columns differ
the non-destructive check reports no allowance while the deduction
succeeds. -/
theorem c5_check_deduct_disagree :
    (check_letter_allowance mismatchState 0).has_allowance = false ∧
    (deduct_letter_allowance mismatchState).1 = true := by
  constructor <;> decide

/-- Claim C5, amended: the check and the deduction act on different columns —
`check_letter_allowance` reads `credits_remaining` (and additionally filters
out subscriptions whose `current_period_end` has passed) while
`deduct_letter_allowance` reads and decrements `remaining_letters`, the
column `add_letter_allowances` replenishes.  They agree exactly on states
where the two columns coincide and no period end is set. -/
theorem c5_agreement_on_aligned_states (st : UserState) (now : Nat)
    (halign : ∀ s ∈ st.subs,
      s.credits_remaining = s.remaining_letters ∧
      s.current_period_end = none) :
    (check_letter_allowance st now).has_allowance =
      (deduct_letter_allowance st).1 ∧
    (∀ sub plan_name s',
      add_letter_allowances sub plan_name = some s' →
        s'.remaining_letters = some (lettersForPlan plan_name) ∧
        s'.credits_remaining = sub.credits_remaining) := by
  constructor
  · by_cases hs : st.profile.is_super_user
    · simp [check_letter_allowance, deduct_letter_allowance, deduct_read,
        deduct_write, hs]
    · have hfilters : ∀ s ∈ st.subs,
          activeValidFilter now s = activeFilter s := by
        intro s hsm
        obtain ⟨_, h2⟩ := halign s hsm
        simp [activeValidFilter, activeFilter, h2]
      have hsame := latestWhere_congr _ _ st.subs hfilters
      cases hsub : latestWhere activeFilter st.subs with
      | none =>
          simp [check_letter_allowance, deduct_letter_allowance,
            deduct_read, deduct_write, hs, hsame, hsub]
      | some sub =>
          have hmem := latestWhere_mem _ _ _ hsub
          obtain ⟨hcr, _⟩ := halign sub hmem
          by_cases hpos : sub.remaining_letters.getD 0 ≤ 0
          · simp [check_letter_allowance, deduct_letter_allowance,
              deduct_read, deduct_write, hs, hsame, hsub, hcr, hpos]
          · simp [check_letter_allowance, deduct_letter_allowance,
              deduct_read, deduct_write, hs, hsame, hsub, hcr, hpos]
            omega
  · intro sub plan_name s' h
    by_cases h0 : lettersForPlan plan_name = 0
    · simp [add_letter_allowances, h0] at h
    · simp [add_letter_allowances, h0] at h
      simp [← h]

theorem c5_agreement_witness :
    (∀ s ∈ oneCreditState.subs,
      s.credits_remaining = s.remaining_letters ∧
      s.current_period_end = none) ∧
    ((check_letter_allowance oneCreditState 5).has_allowance =
        (deduct_letter_allowance oneCreditState).1 ∧
     (∀ sub plan_name s',
        add_letter_allowances sub plan_name = some s' →
          s'.remaining_letters = some (lettersForPlan plan_name) ∧
          s'.credits_remaining = sub.credits_remaining)) :=
  ⟨by decide, c5_agreement_on_aligned_states oneCreditState 5 (by decide)⟩

/-- Claim C6: for a super user, `deduct_letter_allowance` returns TRUE
without touching the state — whatever the subscription rows hold (negative,
zero or no counter at all) — and `check_letter_allowance` reports the
unlimited allowance row. -/
theorem c6_super_user_bypass (st : UserState) (now : Nat)
    (h : st.profile.is_super_user = true) :
    deduct_letter_allowance st = (true, st) ∧
    check_letter_allowance st now = ⟨true, 999, some "unlimited", true⟩ := by
  simp [deduct_letter_allowance, deduct_read, deduct_write,
    check_letter_allowance, h]

/-- A super user whose only subscription row carries a negative counter. -/
def superNegativeState : UserState :=
  ⟨⟨true⟩, [⟨3, SubStatus.canceled, 0, some 1, some (-2), some (-2), none⟩]⟩

theorem c6_super_user_bypass_witness :
    superNegativeState.profile.is_super_user = true ∧
    (deduct_letter_allowance superNegativeState = (true, superNegativeState) ∧
     check_letter_allowance superNegativeState 0 =
       ⟨true, 999, some "unlimited", true⟩) :=
  ⟨rfl, c6_super_user_bypass superNegativeState 0 rfl⟩

/-- Claim C7: for a non-super user whose latest active subscription has a
zero letter counter, `deduct_letter_allowance` returns FALSE and leaves the
state untouched, and calling it again still returns FALSE on the unchanged
state — denial is idempotent. -/
theorem c7_idempotent_denial (st : UserState) (sub : Subscription)
    (hns : st.profile.is_super_user = false)
    (hsub : latestWhere activeFilter st.subs = some sub)
    (hzero : sub.remaining_letters.getD 0 = 0) :
    deduct_letter_allowance st = (false, st) ∧
    deduct_letter_allowance (deduct_letter_allowance st).2 = (false, st) := by
  have h1 : deduct_letter_allowance st = (false, st) := by
    simp [deduct_letter_allowance, deduct_read, deduct_write, hns, hsub,
      hzero]
  exact ⟨h1, by rw [h1]; exact h1⟩

/-- A non-super user with one active subscription and no credits left. -/
def exhaustedState : UserState :=
  ⟨⟨false⟩, [⟨0, SubStatus.active, 0, none, some 0, some 0, some "one_time"⟩]⟩

theorem c7_idempotent_denial_witness :
    exhaustedState.profile.is_super_user = false ∧
    latestWhere activeFilter exhaustedState.subs =
      some ⟨0, SubStatus.active, 0, none, some 0, some 0, some "one_time"⟩ ∧
    (deduct_letter_allowance exhaustedState = (false, exhaustedState) ∧
     deduct_letter_allowance (deduct_letter_allowance exhaustedState).2 =
       (false, exhaustedState)) :=
  ⟨rfl, by decide,
    c7_idempotent_denial exhaustedState
      ⟨0, SubStatus.active, 0, none, some 0, some 0, some "one_time"⟩
      rfl (by decide) rfl⟩

/-! ## Free-trial decision of the letter-generation route

The route handler `app/api/generate-letter/route.ts` itself is not part of
the available sources; only its unit tests, the repository's issue write-up
and the spec describe it, so its admission decision is modelled from those
descriptions below. -/

/-- The state the route reads for one user: the user's currently stored
`letters` rows (by id) and the `credits_remaining` column of the user's
subscription row, `none` when no subscription row exists. -/
structure RouteState where
  letters : List Nat
  credits_remaining : Option Int
deriving DecidableEq, Repr

/-- The route's three admission outcomes: the free first letter, a
subscription credit, or denial for lack of credits. -/
inductive RouteOutcome where
  | freeTrial
  | subscriptionCredit
  | deniedNoCredits
deriving DecidableEq, Repr

/-- Modelled from the spec: the admission decision of the letter-generation
route `app/api/generate-letter/route.ts`, which is absent from the available
sources.  Per the spec's design notes ("the source's free-trial eligibility
check in places appears to use count of existing letters = 0"), the route's
unit tests (an empty `letters` query result yields a successful generation
with `isFirstLetter = true` and no subscription consulted; a non-empty one
makes the route read the subscription's `credits_remaining`, denying with
"No letter credits remaining" when it is 0) and the repository issue
write-up, eligibility is derived from the current stored-letter count, not
from a durable ever-generated signal. -/
def routeDecision (st : RouteState) : RouteOutcome :=
  if st.letters.isEmpty then RouteOutcome.freeTrial
  else
    match st.credits_remaining with
    | some c =>
        if c > 0 then RouteOutcome.subscriptionCredit
        else RouteOutcome.deniedNoCredits
    | none => RouteOutcome.deniedNoCredits

/-- Modelled from the spec: the state change the route performs after an
allowed decision — inserting the generated letter row (and, on the
subscription path, consuming one credit).  This write is a separate step
after the eligibility read, not part of one atomic read-modify-write; the
repository issue write-up records the resulting race as Issue #2. -/
def routeCommit (st : RouteState) (o : RouteOutcome) (newId : Nat) :
    RouteState :=
  match o with
  | RouteOutcome.freeTrial => { st with letters := st.letters ++ [newId] }
  | RouteOutcome.subscriptionCredit =>
      { letters := st.letters ++ [newId],
        credits_remaining := st.credits_remaining.map (· - 1) }
  | RouteOutcome.deniedNoCredits => st

/-- One uninterrupted letter-generation request. -/
def generateLetter (st : RouteState) (newId : Nat) :
    RouteOutcome × RouteState :=
  let o := routeDecision st
  (o, routeCommit st o newId)

/-- Removal of all of the user's stored letters (the letters table row
deletion whose abuse the repository issue write-up records as Issue #3). -/
def deleteAllLetters (st : RouteState) : RouteState :=
  { st with letters := [] }

/-- A user who has never generated a letter and holds no subscription. -/
def freshUserState : RouteState := ⟨[], none⟩

/-- The schedule in which two concurrent letter-generation requests for the
same user both run the eligibility read before either letter insert
commits. -/
def twoConcurrentGenerations (st : RouteState) :
    RouteOutcome × RouteOutcome × RouteState :=
  let o1 := routeDecision st
  let o2 := routeDecision st
  let st1 := routeCommit st o1 1
  let st2 := routeCommit st1 o2 2
  (o1, o2, st2)

/-- Claim C3 fails on the code: the free-trial eligibility check is a read
of the current letter count separate from the write that stores the letter,
so in the schedule where two concurrent first-time requests both read before
either insert commits, both calls return `freeTrial` — not exactly one —
while a second sequential request would not.  The check-and-mark is not a
single atomic read-modify-write. -/
theorem c3_double_free_trial :
    twoConcurrentGenerations freshUserState =
      (RouteOutcome.freeTrial, RouteOutcome.freeTrial, ⟨[1, 2], none⟩) ∧
    (generateLetter (generateLetter freshUserState 1).2 2).1 ≠
      RouteOutcome.freeTrial := by
  constructor <;> decide

/-- Claim C4 fails on the code: after a user's first (free) generation,
deleting all stored letters makes the count-based eligibility check grant
`freeTrial` again — eligibility is derived from the current letter count,
not from a durable ever-generated signal. -/
theorem c4_deletion_restores_free_trial :
    (generateLetter freshUserState 1).1 = RouteOutcome.freeTrial ∧
    (generateLetter
        (deleteAllLetters (generateLetter freshUserState 1).2) 2).1 =
      RouteOutcome.freeTrial := by
  constructor <;> decide

end TalkToMyLawyer
